import Mathlib

set_option maxHeartbeats 1000000

/-!  Shallow embedding of the STM32H7RSxx HAL EXTI driver
     (src/Application_finished/Drivers/STM32H7RSxx_HAL_Driver/Src/stm32h7rsxx_hal_exti.c).

     The peripheral register file is modelled as maps from a bank index to a 32-bit
     register value (design note in the spec: pointer strides over the register struct
     become indexed access into a sequence of registers per group, with the bank index
     as the sequence index).  Machine words are Nat; the C bitwise complement over
     uint32_t is written as xor with 0xFFFFFFFF.  -/

/-- HAL status code returned by the driver entry points. -/
inductive HAL_StatusTypeDef where
  | HAL_OK
  | HAL_ERROR
deriving DecidableEq

open HAL_StatusTypeDef

/-- Modelled from the spec: the device header stm32h7rsxx_hal_exti.h is not in src.
Per spec section 3 a line identifier packs, in disjoint bit fields, a bit position
within its bank (low 5 bits), a register-bank index, and capability flags.
Low field: bit position 0-31 inside the bank. -/
def EXTI_PIN_MASK : Nat := 0x1F

/-- Modelled from the spec: shift of the register-bank index field of the identifier. -/
def EXTI_REG_SHIFT : Nat := 16

/-- Modelled from the spec: mask of the register-bank index field of the identifier. -/
def EXTI_REG_MASK : Nat := 0x00030000

/-- Modelled from the spec: capability flag - the line supports edge-trigger
configuration. -/
def EXTI_CONFIG : Nat := 0x02000000

/-- Modelled from the spec: capability flags of a GPIO-sourced line (a GPIO-sourced
line is a configurable line, so this value includes the EXTI_CONFIG flag; the code
tests (Line and EXTI_GPIO) == EXTI_GPIO). -/
def EXTI_GPIO : Nat := 0x06000000

/-- Modelled from the spec: capability flag - the line supports event (wake) mode. -/
def EXTI_EVENT : Nat := 0x10000000

/-- Mode encoding: no mode selected. -/
def EXTI_MODE_NONE : Nat := 0

/-- Mode encoding: interrupt mode bit. -/
def EXTI_MODE_INTERRUPT : Nat := 1

/-- Mode encoding: event mode bit. -/
def EXTI_MODE_EVENT : Nat := 2

/-- Trigger encoding: no trigger selected. -/
def EXTI_TRIGGER_NONE : Nat := 0

/-- Trigger encoding: rising-edge bit. -/
def EXTI_TRIGGER_RISING : Nat := 1

/-- Trigger encoding: falling-edge bit. -/
def EXTI_TRIGGER_FALLING : Nat := 2

/-- Modelled from the spec: the packed GPIO-port-selector word holds 4 line fields
per 32-bit word; this is the field mask of the first field (field width 4 bits). -/
def SBS_EXTICR1_PC_EXTI0 : Nat := 0xF

/-- Modelled from the spec: bit position of the second selector field, i.e. the
field stride in bits inside the packed selector word. -/
def SBS_EXTICR1_PC_EXTI1_Pos : Nat := 4

/-- Modelled from the spec: the single defined callback role (common pending
callback), the only member of EXTI_CallbackIDTypeDef. -/
def HAL_EXTI_COMMON_CB_ID : Nat := 0

/-- EXTI configuration descriptor (EXTI_ConfigTypeDef): line identifier, mode,
trigger, and GPIO port selector. -/
structure EXTI_ConfigTypeDef where
  Line : Nat
  Mode : Nat
  Trigger : Nat
  GPIOSel : Nat
deriving DecidableEq

/-- EXTI handle (EXTI_HandleTypeDef): the line identifier and the registered
pending callback.  The callback is an opaque function reference, modelled as a
Nat identifier; none models a NULL callback pointer. -/
structure EXTI_HandleTypeDef where
  Line : Nat
  PendingCallback : Option Nat
deriving DecidableEq

/-- The memory-mapped peripheral register file: each group of replicated 32-bit
registers is a map from bank index to register value (EXTI registers), and the
packed GPIO-port-selector words are a map from word index to word value
(SBS EXTICR). -/
structure EXTI_RegisterFile where
  IMR : Nat → Nat
  EMR : Nat → Nat
  RTSR : Nat → Nat
  FTSR : Nat → Nat
  PR : Nat → Nat
  SWIER : Nat → Nat
  EXTICR : Nat → Nat

/-- Point update of one register in a register group: write value v at index i,
keep every other register. -/
def upd (f : Nat → Nat) (i v : Nat) : Nat → Nat :=
  fun j => if j = i then v else f j

/-- Addressing helper (computed identically at the top of every C entry point):
offset = (Line and EXTI_REG_MASK) shifted right by EXTI_REG_SHIFT. -/
def lineBank (line : Nat) : Nat := (line &&& EXTI_REG_MASK) >>> EXTI_REG_SHIFT

/-- Addressing helper: linepos = Line and EXTI_PIN_MASK. -/
def linePos (line : Nat) : Nat := line &&& EXTI_PIN_MASK

/-- Addressing helper: maskline = 1 shifted left by linepos. -/
def lineMask (line : Nat) : Nat := 1 <<< linePos line

/-- The read-modify-write pattern repeated in the driver ("Mask or set line"):
set or clear one line bit in a register value; the C clears with the 32-bit
complement of the mask. -/
def rmwBit (regval : Nat) (b : Bool) (maskline : Nat) : Nat :=
  if b then regval ||| maskline else regval &&& (0xFFFFFFFF ^^^ maskline)

/-- Modelled from the spec: write-1-to-clear hardware semantics of the pending
register - writing a value clears exactly the bits set in that value and leaves
the other bits unchanged (spec sections 4.6, 4.7 and the register table). -/
def prWrite (old v : Nat) : Nat := old &&& (0xFFFFFFFF ^^^ v)

/-- HAL_EXTI_SetConfigLine: null-check, store the descriptor line into the handle,
then for configurable lines read-modify-write the rising and falling trigger
registers, for GPIO-sourced lines rewrite the line's selector field in the packed
selector word, and finally read-modify-write the interrupt-mask and event-mask
registers.  Returns the status, the new register state and the new handle. -/
def HAL_EXTI_SetConfigLine (s : EXTI_RegisterFile) (hexti : Option EXTI_HandleTypeDef)
    (pExtiConfig : Option EXTI_ConfigTypeDef) :
    HAL_StatusTypeDef × EXTI_RegisterFile × Option EXTI_HandleTypeDef :=
  match hexti, pExtiConfig with
  | some h, some cfg =>
    let offset := lineBank cfg.Line
    let linepos := linePos cfg.Line
    let maskline := lineMask cfg.Line
    let h1 : EXTI_HandleTypeDef := { h with Line := cfg.Line }
    let s1 :=
      if cfg.Line &&& EXTI_CONFIG ≠ 0 then
        let rt := rmwBit (s.RTSR offset) (cfg.Trigger &&& EXTI_TRIGGER_RISING != 0) maskline
        let sR := { s with RTSR := upd s.RTSR offset rt }
        let ft := rmwBit (sR.FTSR offset) (cfg.Trigger &&& EXTI_TRIGGER_FALLING != 0) maskline
        let sF := { sR with FTSR := upd sR.FTSR offset ft }
        if cfg.Line &&& EXTI_GPIO = EXTI_GPIO then
          let regval := sF.EXTICR (linepos >>> 2) &&&
            (0xFFFFFFFF ^^^ (SBS_EXTICR1_PC_EXTI0 <<< (SBS_EXTICR1_PC_EXTI1_Pos * (linepos &&& 0x03))))
          let regval2 := regval ||| (cfg.GPIOSel <<< (SBS_EXTICR1_PC_EXTI1_Pos * (linepos &&& 0x03)))
          { sF with EXTICR := upd sF.EXTICR (linepos >>> 2) regval2 }
        else sF
      else s
    let im := rmwBit (s1.IMR offset) (cfg.Mode &&& EXTI_MODE_INTERRUPT != 0) maskline
    let s2 := { s1 with IMR := upd s1.IMR offset im }
    let em := rmwBit (s2.EMR offset) (cfg.Mode &&& EXTI_MODE_EVENT != 0) maskline
    let s3 := { s2 with EMR := upd s2.EMR offset em }
    (HAL_OK, s3, some h1)
  | _, _ => (HAL_ERROR, s, hexti)

/-- HAL_EXTI_GetConfigLine: null-check, then read back the descriptor of the
handle's line from the register state (mode from the interrupt- and event-mask
bits; trigger from the rising/falling trigger bits for configurable lines, else
none; GPIO selector from the packed selector word for GPIO-sourced lines, else
zero).  The output descriptor argument is an out-parameter: every field is
overwritten. -/
def HAL_EXTI_GetConfigLine (s : EXTI_RegisterFile) (hexti : Option EXTI_HandleTypeDef)
    (pExtiConfig : Option EXTI_ConfigTypeDef) :
    HAL_StatusTypeDef × Option EXTI_ConfigTypeDef :=
  match hexti, pExtiConfig with
  | some h, some _cfg =>
    let line := h.Line
    let offset := lineBank line
    let linepos := linePos line
    let maskline := lineMask line
    let mode1 := if s.IMR offset &&& maskline ≠ 0 then EXTI_MODE_INTERRUPT else EXTI_MODE_NONE
    let mode2 := if s.EMR offset &&& maskline ≠ 0 then mode1 ||| EXTI_MODE_EVENT else mode1
    let tg :=
      if line &&& EXTI_CONFIG ≠ 0 then
        let t1 := if s.RTSR offset &&& maskline ≠ 0 then EXTI_TRIGGER_RISING else EXTI_TRIGGER_NONE
        let t2 := if s.FTSR offset &&& maskline ≠ 0 then t1 ||| EXTI_TRIGGER_FALLING else t1
        let g :=
          if line &&& EXTI_GPIO = EXTI_GPIO then
            (s.EXTICR (linepos >>> 2) >>> (SBS_EXTICR1_PC_EXTI1_Pos * (linepos &&& 0x03))) &&&
              SBS_EXTICR1_PC_EXTI0
          else 0
        (t2, g)
      else (EXTI_TRIGGER_NONE, 0)
    (HAL_OK, some { Line := line, Mode := mode2, Trigger := tg.1, GPIOSel := tg.2 })
  | _, _ => (HAL_ERROR, pExtiConfig)

/-- HAL_EXTI_ClearConfigLine: null-check, then clear the line's interrupt-mask and
event-mask bits; for configurable lines additionally clear its rising and falling
trigger bits, and for GPIO-sourced lines zero its selector field in the packed
selector word. -/
def HAL_EXTI_ClearConfigLine (s : EXTI_RegisterFile) (hexti : Option EXTI_HandleTypeDef) :
    HAL_StatusTypeDef × EXTI_RegisterFile :=
  match hexti with
  | none => (HAL_ERROR, s)
  | some h =>
    let offset := lineBank h.Line
    let linepos := linePos h.Line
    let maskline := lineMask h.Line
    let s1 := { s with IMR := upd s.IMR offset (s.IMR offset &&& (0xFFFFFFFF ^^^ maskline)) }
    let s2 := { s1 with EMR := upd s1.EMR offset (s1.EMR offset &&& (0xFFFFFFFF ^^^ maskline)) }
    let s3 :=
      if h.Line &&& EXTI_CONFIG ≠ 0 then
        let sR := { s2 with RTSR := upd s2.RTSR offset (s2.RTSR offset &&& (0xFFFFFFFF ^^^ maskline)) }
        let sF := { sR with FTSR := upd sR.FTSR offset (sR.FTSR offset &&& (0xFFFFFFFF ^^^ maskline)) }
        if h.Line &&& EXTI_GPIO = EXTI_GPIO then
          let regval := sF.EXTICR (linepos >>> 2) &&&
            (0xFFFFFFFF ^^^ (SBS_EXTICR1_PC_EXTI0 <<< (SBS_EXTICR1_PC_EXTI1_Pos * (linepos &&& 0x03))))
          { sF with EXTICR := upd sF.EXTICR (linepos >>> 2) regval }
        else sF
      else s2
    (HAL_OK, s3)

/-- HAL_EXTI_RegisterCallback: switch on the callback identifier; the single
defined role stores the callback reference through the handle (the C performs no
null check on the handle, so an absent handle never reaches a status return in
that branch - modelled as none); any other role returns HAL_ERROR without
touching the handle. -/
def HAL_EXTI_RegisterCallback (hexti : Option EXTI_HandleTypeDef) (CallbackID : Nat)
    (pPendingCbfn : Option Nat) :
    Option (HAL_StatusTypeDef × Option EXTI_HandleTypeDef) :=
  if CallbackID = HAL_EXTI_COMMON_CB_ID then
    match hexti with
    | some h => some (HAL_OK, some { h with PendingCallback := pPendingCbfn })
    | none => none
  else
    some (HAL_ERROR, hexti)

/-- HAL_EXTI_GetHandle: null-check, then store the line number into the handle.
The C body touches no peripheral register; the register file is passed through
unchanged. -/
def HAL_EXTI_GetHandle (s : EXTI_RegisterFile) (hexti : Option EXTI_HandleTypeDef)
    (ExtiLine : Nat) :
    HAL_StatusTypeDef × EXTI_RegisterFile × Option EXTI_HandleTypeDef :=
  match hexti with
  | none => (HAL_ERROR, s, none)
  | some h => (HAL_OK, s, some { h with Line := ExtiLine })

/-- HAL_EXTI_IRQHandler: read the line's pending bit; if set, clear it by
writing the single-bit mask to the pending register (write-1-to-clear), then
invoke the registered callback if one is present.  The second component lists
the callback invocations, each recording the register state observed when the
callback is entered. -/
def HAL_EXTI_IRQHandler (s : EXTI_RegisterFile) (hexti : EXTI_HandleTypeDef) :
    EXTI_RegisterFile × List EXTI_RegisterFile :=
  let offset := lineBank hexti.Line
  let maskline := lineMask hexti.Line
  let regval := s.PR offset &&& maskline
  if regval ≠ 0 then
    let s1 := { s with PR := upd s.PR offset (prWrite (s.PR offset) maskline) }
    match hexti.PendingCallback with
    | some _ => (s1, [s1])
    | none => (s1, [])
  else
    (s, [])

/-- HAL_EXTI_GetPending: return 1 if the line's pending bit is set, else 0.
The Edge argument is unused (the C wraps it in UNUSED(Edge)). -/
def HAL_EXTI_GetPending (s : EXTI_RegisterFile) (hexti : EXTI_HandleTypeDef)
    (Edge : Nat) : Nat :=
  let offset := lineBank hexti.Line
  let linepos := linePos hexti.Line
  let maskline := lineMask hexti.Line
  let _ := Edge
  (s.PR offset &&& maskline) >>> linepos

/-- HAL_EXTI_ClearPending: write the line's single-bit mask to the pending
register (write-1-to-clear).  The Edge argument is unused (UNUSED(Edge)). -/
def HAL_EXTI_ClearPending (s : EXTI_RegisterFile) (hexti : EXTI_HandleTypeDef)
    (Edge : Nat) : EXTI_RegisterFile :=
  let offset := lineBank hexti.Line
  let maskline := lineMask hexti.Line
  let _ := Edge
  { s with PR := upd s.PR offset (prWrite (s.PR offset) maskline) }

/-- HAL_EXTI_GenerateSWI: write the line's single-bit mask to the
software-interrupt-trigger register.  Modelled from the spec: the hardware
effect of that write is that the line's pending flag becomes set (spec section
4.7: software trigger makes hardware behave as if the configured edge occurred,
and section 8: a subsequent pending query reports 1). -/
def HAL_EXTI_GenerateSWI (s : EXTI_RegisterFile) (hexti : EXTI_HandleTypeDef) :
    EXTI_RegisterFile :=
  let offset := lineBank hexti.Line
  let maskline := lineMask hexti.Line
  let s1 := { s with SWIER := upd s.SWIER offset maskline }
  { s1 with PR := upd s1.PR offset (s1.PR offset ||| maskline) }

/-- Modelled from the spec: a well-formed line identifier of a GPIO-sourced line
sits in bank 0 at bit position 0-15 (source comment "Exti lines 0 to 15 are
linked to gpio pin number 0 to 15" and the IS_EXTI_GPIO_PIN assertion; the line
table lives in the header that is not in src). -/
def ValidLine (l : Nat) : Prop :=
  l &&& EXTI_GPIO = EXTI_GPIO → lineBank l = 0 ∧ linePos l < 16

instance (l : Nat) : Decidable (ValidLine l) := by
  unfold ValidLine
  infer_instance

/-! Bit-level toolkit -/

theorem upd_same (f : Nat → Nat) (i v : Nat) : upd f i v i = v := by
  simp [upd]

theorem upd_other (f : Nat → Nat) (i v j : Nat) (h : j ≠ i) : upd f i v j = f j := by
  simp [upd, h]

theorem linePos_lt_32 (l : Nat) : linePos l < 32 := by
  have h := Nat.and_le_right (n := l) (m := EXTI_PIN_MASK)
  simp only [linePos, EXTI_PIN_MASK] at *
  omega

theorem testBit_one_shiftLeft (p q : Nat) : (1 <<< p).testBit q = decide (q = p) := by
  rw [Nat.one_shiftLeft, Nat.testBit_two_pow]
  simp [eq_comm]

theorem and_mask_ne_zero_iff (w p : Nat) : w &&& (1 <<< p) ≠ 0 ↔ w.testBit p = true := by
  rw [Nat.one_shiftLeft]
  constructor
  · intro h
    by_contra hb
    rw [Bool.not_eq_true] at hb
    apply h
    apply Nat.eq_of_testBit_eq
    intro i
    simp only [Nat.testBit_and, Nat.testBit_two_pow, Nat.zero_testBit]
    by_cases hpi : p = i
    · subst hpi
      simp [hb]
    · simp [hpi]
  · intro h hz
    have hb : (w &&& 2 ^ p).testBit p = true := by
      simp [Nat.testBit_and, Nat.testBit_two_pow, h]
    rw [hz] at hb
    simp at hb

theorem hexFFFFFFFF_eq : (0xFFFFFFFF : Nat) = 2 ^ 32 - 1 := by norm_num

theorem testBit_notMask32 (p q : Nat) (hq : q < 32) :
    ((0xFFFFFFFF : Nat) ^^^ (1 <<< p)).testBit q = !decide (q = p) := by
  rw [hexFFFFFFFF_eq]
  simp only [Nat.testBit_xor, Nat.testBit_two_pow_sub_one, testBit_one_shiftLeft]
  simp [hq]

theorem rmwBit_testBit (w : Nat) (b : Bool) (p q : Nat) (hq : q < 32) :
    (rmwBit w b (1 <<< p)).testBit q = if q = p then b else w.testBit q := by
  cases b with
  | true =>
    have h1 : rmwBit w true (1 <<< p) = w ||| (1 <<< p) := by simp [rmwBit]
    rw [h1]
    simp only [Nat.testBit_or, testBit_one_shiftLeft]
    by_cases h : q = p
    · simp [h]
    · simp [h]
  | false =>
    have h1 : rmwBit w false (1 <<< p) = w &&& (0xFFFFFFFF ^^^ (1 <<< p)) := by simp [rmwBit]
    rw [h1]
    simp only [Nat.testBit_and, testBit_notMask32 p q hq]
    by_cases h : q = p
    · simp [h]
    · simp [h]

theorem andnot_testBit (w p q : Nat) (hq : q < 32) :
    (w &&& ((0xFFFFFFFF : Nat) ^^^ (1 <<< p))).testBit q =
      if q = p then false else w.testBit q := by
  have h := rmwBit_testBit w false p q hq
  simpa [rmwBit] using h

theorem prWrite_testBit (w p q : Nat) (hq : q < 32) :
    (prWrite w (1 <<< p)).testBit q = if q = p then false else w.testBit q := by
  simpa [prWrite] using andnot_testBit w p q hq

theorem and_mask_shiftRight (w p : Nat) :
    (w &&& (1 <<< p)) >>> p = if w.testBit p then 1 else 0 := by
  by_cases hb : w.testBit p
  · have hw : w &&& (1 <<< p) = 1 <<< p := by
      apply Nat.eq_of_testBit_eq
      intro i
      simp only [Nat.testBit_and, testBit_one_shiftLeft]
      by_cases hip : i = p
      · subst hip
        simp [hb]
      · simp [hip]
    rw [hw, Nat.one_shiftLeft, Nat.shiftRight_eq_div_pow, Nat.div_self (Nat.pos_pow_of_pos p (by omega))]
    simp [hb]
  · have hw : w &&& (1 <<< p) = 0 := by
      apply Nat.eq_of_testBit_eq
      intro i
      simp only [Nat.testBit_and, testBit_one_shiftLeft, Nat.zero_testBit]
      by_cases hip : i = p
      · subst hip
        simp [Bool.not_eq_true] at hb
        simp [hb]
      · simp [hip]
    rw [hw]
    simp [hb]

theorem testBit_fifteen (i : Nat) : (0xF : Nat).testBit i = decide (i < 4) := by
  have h : (0xF : Nat) = 2 ^ 4 - 1 := by norm_num
  rw [h, Nat.testBit_two_pow_sub_one]

theorem testBit_notFieldMask (sh q : Nat) (hq : q < 32) :
    ((0xFFFFFFFF : Nat) ^^^ (0xF <<< sh)).testBit q =
      !(decide (sh ≤ q) && decide (q - sh < 4)) := by
  rw [hexFFFFFFFF_eq]
  simp only [Nat.testBit_xor, Nat.testBit_two_pow_sub_one, Nat.testBit_shiftLeft,
    testBit_fifteen, ge_iff_le]
  simp [hq]

theorem sel_shift_testBit_out (sel sh q : Nat) (hsel : sel < 16) (h : q < sh ∨ sh + 4 ≤ q) :
    (sel <<< sh).testBit q = false := by
  simp only [Nat.testBit_shiftLeft, ge_iff_le]
  rcases h with hc | hc
  · simp [Nat.not_le.mpr hc]
  · have hlt : sel < 2 ^ (q - sh) := by
      have h16 : (16 : Nat) = 2 ^ 4 := by norm_num
      have hle : (2 : Nat) ^ 4 ≤ 2 ^ (q - sh) := Nat.pow_le_pow_right (by omega) (by omega)
      omega
    simp [Nat.testBit_lt_two_pow hlt]

theorem field_extract_congr (w w' sh : Nat)
    (h : ∀ i, i < 4 → w'.testBit (sh + i) = w.testBit (sh + i)) :
    (w' >>> sh) &&& 0xF = (w >>> sh) &&& 0xF := by
  apply Nat.eq_of_testBit_eq
  intro i
  simp only [Nat.testBit_and, Nat.testBit_shiftRight, testBit_fifteen]
  by_cases hi : i < 4
  · rw [h i hi]
  · simp [hi]

theorem field_write_frame (w sel shA shB : Nat) (hsel : sel < 16)
    (hA : shA ≤ 12) (hB : shB ≤ 12) (h4A : shA % 4 = 0) (h4B : shB % 4 = 0)
    (hAB : shA ≠ shB) :
    (((w &&& (0xFFFFFFFF ^^^ (0xF <<< shA))) ||| (sel <<< shA)) >>> shB) &&& 0xF
      = (w >>> shB) &&& 0xF := by
  apply field_extract_congr
  intro i hi
  have hout : shB + i < shA ∨ shA + 4 ≤ shB + i := by omega
  have hq : shB + i < 32 := by omega
  rw [Nat.testBit_or, sel_shift_testBit_out sel shA (shB + i) hsel hout,
      Nat.testBit_and, testBit_notFieldMask shA (shB + i) hq]
  rcases hout with hc | hc
  · simp [Nat.not_le.mpr hc]
  · have h2 : ¬(shB + i - shA < 4) := by omega
    simp [h2]

theorem field_clear_frame (w shA shB : Nat)
    (hA : shA ≤ 12) (hB : shB ≤ 12) (h4A : shA % 4 = 0) (h4B : shB % 4 = 0)
    (hAB : shA ≠ shB) :
    ((w &&& (0xFFFFFFFF ^^^ (0xF <<< shA))) >>> shB) &&& 0xF
      = (w >>> shB) &&& 0xF := by
  apply field_extract_congr
  intro i hi
  have hout : shB + i < shA ∨ shA + 4 ≤ shB + i := by omega
  have hq : shB + i < 32 := by omega
  rw [Nat.testBit_and, testBit_notFieldMask shA (shB + i) hq]
  rcases hout with hc | hc
  · simp [Nat.not_le.mpr hc]
  · have h2 : ¬(shB + i - shA < 4) := by omega
    simp [h2]

theorem field_clear_self (w sh : Nat) (hsh : sh ≤ 12) :
    ((w &&& (0xFFFFFFFF ^^^ (0xF <<< sh))) >>> sh) &&& 0xF = 0 := by
  apply Nat.eq_of_testBit_eq
  intro i
  simp only [Nat.testBit_and, Nat.testBit_shiftRight, testBit_fifteen, Nat.zero_testBit]
  by_cases hi : i < 4
  · have hq : sh + i < 32 := by omega
    rw [testBit_notFieldMask sh (sh + i) hq]
    have h1 : sh ≤ sh + i := Nat.le_add_right sh i
    have h2 : sh + i - sh < 4 := by omega
    simp [h1, h2]
  · simp [hi]

theorem field_roundtrip (w sel sh : Nat) (hsel : sel < 16) (hsh : sh ≤ 12) :
    (((w &&& (0xFFFFFFFF ^^^ (0xF <<< sh))) ||| (sel <<< sh)) >>> sh) &&& 0xF = sel := by
  apply Nat.eq_of_testBit_eq
  intro i
  simp only [Nat.testBit_and, Nat.testBit_shiftRight, testBit_fifteen]
  by_cases hi : i < 4
  · have hq : sh + i < 32 := by omega
    have hsub : sh + i - sh = i := by omega
    rw [Nat.testBit_or, Nat.testBit_and, testBit_notFieldMask sh (sh + i) hq]
    simp [Nat.testBit_shiftLeft, hsub, hi, Nat.le_add_right]
  · have hlt : sel < 2 ^ i := by
      have h16 : (16 : Nat) = 2 ^ 4 := by norm_num
      have hle : (2 : Nat) ^ 4 ≤ 2 ^ i := Nat.pow_le_pow_right (by omega) (by omega)
      omega
    simp [hi, Nat.testBit_lt_two_pow hlt]

/-! Characterization of the register state produced by the configuration operations -/

theorem setConfig_status (s : EXTI_RegisterFile) (hA : EXTI_HandleTypeDef)
    (cfg : EXTI_ConfigTypeDef) :
    (HAL_EXTI_SetConfigLine s (some hA) (some cfg)).1 = HAL_OK := by
  rfl

theorem setConfig_handle (s : EXTI_RegisterFile) (hA : EXTI_HandleTypeDef)
    (cfg : EXTI_ConfigTypeDef) :
    (HAL_EXTI_SetConfigLine s (some hA) (some cfg)).2.2
      = some { hA with Line := cfg.Line } := by
  rfl

theorem setConfig_IMR_eq (s : EXTI_RegisterFile) (hA : EXTI_HandleTypeDef)
    (cfg : EXTI_ConfigTypeDef) :
    ((HAL_EXTI_SetConfigLine s (some hA) (some cfg)).2.1).IMR
      = upd s.IMR (lineBank cfg.Line)
          (rmwBit (s.IMR (lineBank cfg.Line)) (cfg.Mode &&& EXTI_MODE_INTERRUPT != 0)
            (lineMask cfg.Line)) := by
  unfold HAL_EXTI_SetConfigLine
  dsimp only
  split
  · split
    · rfl
    · rfl
  · rfl

theorem setConfig_EMR_eq (s : EXTI_RegisterFile) (hA : EXTI_HandleTypeDef)
    (cfg : EXTI_ConfigTypeDef) :
    ((HAL_EXTI_SetConfigLine s (some hA) (some cfg)).2.1).EMR
      = upd s.EMR (lineBank cfg.Line)
          (rmwBit (s.EMR (lineBank cfg.Line)) (cfg.Mode &&& EXTI_MODE_EVENT != 0)
            (lineMask cfg.Line)) := by
  unfold HAL_EXTI_SetConfigLine
  dsimp only
  split
  · split
    · rfl
    · rfl
  · rfl

theorem setConfig_RTSR_eq (s : EXTI_RegisterFile) (hA : EXTI_HandleTypeDef)
    (cfg : EXTI_ConfigTypeDef) :
    ((HAL_EXTI_SetConfigLine s (some hA) (some cfg)).2.1).RTSR
      = if cfg.Line &&& EXTI_CONFIG ≠ 0 then
          upd s.RTSR (lineBank cfg.Line)
            (rmwBit (s.RTSR (lineBank cfg.Line)) (cfg.Trigger &&& EXTI_TRIGGER_RISING != 0)
              (lineMask cfg.Line))
        else s.RTSR := by
  unfold HAL_EXTI_SetConfigLine
  dsimp only
  by_cases h1 : cfg.Line &&& EXTI_CONFIG ≠ 0
  · rw [if_pos h1, if_pos h1]
    split
    · rfl
    · rfl
  · rw [if_neg h1, if_neg h1]

theorem setConfig_FTSR_eq (s : EXTI_RegisterFile) (hA : EXTI_HandleTypeDef)
    (cfg : EXTI_ConfigTypeDef) :
    ((HAL_EXTI_SetConfigLine s (some hA) (some cfg)).2.1).FTSR
      = if cfg.Line &&& EXTI_CONFIG ≠ 0 then
          upd s.FTSR (lineBank cfg.Line)
            (rmwBit (s.FTSR (lineBank cfg.Line)) (cfg.Trigger &&& EXTI_TRIGGER_FALLING != 0)
              (lineMask cfg.Line))
        else s.FTSR := by
  unfold HAL_EXTI_SetConfigLine
  dsimp only
  by_cases h1 : cfg.Line &&& EXTI_CONFIG ≠ 0
  · rw [if_pos h1, if_pos h1]
    split
    · rfl
    · rfl
  · rw [if_neg h1, if_neg h1]

theorem setConfig_EXTICR_eq (s : EXTI_RegisterFile) (hA : EXTI_HandleTypeDef)
    (cfg : EXTI_ConfigTypeDef) :
    ((HAL_EXTI_SetConfigLine s (some hA) (some cfg)).2.1).EXTICR
      = if cfg.Line &&& EXTI_CONFIG ≠ 0 then
          if cfg.Line &&& EXTI_GPIO = EXTI_GPIO then
            upd s.EXTICR (linePos cfg.Line >>> 2)
              ((s.EXTICR (linePos cfg.Line >>> 2) &&&
                (0xFFFFFFFF ^^^ (SBS_EXTICR1_PC_EXTI0 <<<
                  (SBS_EXTICR1_PC_EXTI1_Pos * (linePos cfg.Line &&& 0x03))))) |||
                (cfg.GPIOSel <<< (SBS_EXTICR1_PC_EXTI1_Pos * (linePos cfg.Line &&& 0x03))))
          else s.EXTICR
        else s.EXTICR := by
  unfold HAL_EXTI_SetConfigLine
  dsimp only
  by_cases h1 : cfg.Line &&& EXTI_CONFIG ≠ 0
  · rw [if_pos h1, if_pos h1]
    by_cases h2 : cfg.Line &&& EXTI_GPIO = EXTI_GPIO
    · rw [if_pos h2, if_pos h2]
    · rw [if_neg h2, if_neg h2]
  · rw [if_neg h1, if_neg h1]

theorem setConfig_PR_eq (s : EXTI_RegisterFile) (hA : EXTI_HandleTypeDef)
    (cfg : EXTI_ConfigTypeDef) :
    ((HAL_EXTI_SetConfigLine s (some hA) (some cfg)).2.1).PR = s.PR := by
  unfold HAL_EXTI_SetConfigLine
  dsimp only
  split
  · split
    · rfl
    · rfl
  · rfl

theorem setConfig_SWIER_eq (s : EXTI_RegisterFile) (hA : EXTI_HandleTypeDef)
    (cfg : EXTI_ConfigTypeDef) :
    ((HAL_EXTI_SetConfigLine s (some hA) (some cfg)).2.1).SWIER = s.SWIER := by
  unfold HAL_EXTI_SetConfigLine
  dsimp only
  split
  · split
    · rfl
    · rfl
  · rfl

theorem clearConfig_status (s : EXTI_RegisterFile) (h : EXTI_HandleTypeDef) :
    (HAL_EXTI_ClearConfigLine s (some h)).1 = HAL_OK := by
  rfl

theorem clearConfig_IMR_eq (s : EXTI_RegisterFile) (h : EXTI_HandleTypeDef) :
    ((HAL_EXTI_ClearConfigLine s (some h)).2).IMR
      = upd s.IMR (lineBank h.Line)
          (s.IMR (lineBank h.Line) &&& (0xFFFFFFFF ^^^ lineMask h.Line)) := by
  unfold HAL_EXTI_ClearConfigLine
  dsimp only
  split
  · split
    · rfl
    · rfl
  · rfl

theorem clearConfig_EMR_eq (s : EXTI_RegisterFile) (h : EXTI_HandleTypeDef) :
    ((HAL_EXTI_ClearConfigLine s (some h)).2).EMR
      = upd s.EMR (lineBank h.Line)
          (s.EMR (lineBank h.Line) &&& (0xFFFFFFFF ^^^ lineMask h.Line)) := by
  unfold HAL_EXTI_ClearConfigLine
  dsimp only
  split
  · split
    · rfl
    · rfl
  · rfl

theorem clearConfig_RTSR_eq (s : EXTI_RegisterFile) (h : EXTI_HandleTypeDef) :
    ((HAL_EXTI_ClearConfigLine s (some h)).2).RTSR
      = if h.Line &&& EXTI_CONFIG ≠ 0 then
          upd s.RTSR (lineBank h.Line)
            (s.RTSR (lineBank h.Line) &&& (0xFFFFFFFF ^^^ lineMask h.Line))
        else s.RTSR := by
  unfold HAL_EXTI_ClearConfigLine
  dsimp only
  by_cases h1 : h.Line &&& EXTI_CONFIG ≠ 0
  · rw [if_pos h1, if_pos h1]
    split
    · rfl
    · rfl
  · rw [if_neg h1, if_neg h1]

theorem clearConfig_FTSR_eq (s : EXTI_RegisterFile) (h : EXTI_HandleTypeDef) :
    ((HAL_EXTI_ClearConfigLine s (some h)).2).FTSR
      = if h.Line &&& EXTI_CONFIG ≠ 0 then
          upd s.FTSR (lineBank h.Line)
            (s.FTSR (lineBank h.Line) &&& (0xFFFFFFFF ^^^ lineMask h.Line))
        else s.FTSR := by
  unfold HAL_EXTI_ClearConfigLine
  dsimp only
  by_cases h1 : h.Line &&& EXTI_CONFIG ≠ 0
  · rw [if_pos h1, if_pos h1]
    split
    · rfl
    · rfl
  · rw [if_neg h1, if_neg h1]

theorem clearConfig_EXTICR_eq (s : EXTI_RegisterFile) (h : EXTI_HandleTypeDef) :
    ((HAL_EXTI_ClearConfigLine s (some h)).2).EXTICR
      = if h.Line &&& EXTI_CONFIG ≠ 0 then
          if h.Line &&& EXTI_GPIO = EXTI_GPIO then
            upd s.EXTICR (linePos h.Line >>> 2)
              (s.EXTICR (linePos h.Line >>> 2) &&&
                (0xFFFFFFFF ^^^ (SBS_EXTICR1_PC_EXTI0 <<<
                  (SBS_EXTICR1_PC_EXTI1_Pos * (linePos h.Line &&& 0x03)))))
          else s.EXTICR
        else s.EXTICR := by
  unfold HAL_EXTI_ClearConfigLine
  dsimp only
  by_cases h1 : h.Line &&& EXTI_CONFIG ≠ 0
  · rw [if_pos h1, if_pos h1]
    by_cases h2 : h.Line &&& EXTI_GPIO = EXTI_GPIO
    · rw [if_pos h2, if_pos h2]
    · rw [if_neg h2, if_neg h2]
  · rw [if_neg h1, if_neg h1]

theorem clearConfig_PR_eq (s : EXTI_RegisterFile) (h : EXTI_HandleTypeDef) :
    ((HAL_EXTI_ClearConfigLine s (some h)).2).PR = s.PR := by
  unfold HAL_EXTI_ClearConfigLine
  dsimp only
  split
  · split
    · rfl
    · rfl
  · rfl

theorem clearConfig_SWIER_eq (s : EXTI_RegisterFile) (h : EXTI_HandleTypeDef) :
    ((HAL_EXTI_ClearConfigLine s (some h)).2).SWIER = s.SWIER := by
  unfold HAL_EXTI_ClearConfigLine
  dsimp only
  split
  · split
    · rfl
    · rfl
  · rfl

theorem getConfigLine_eq (s : EXTI_RegisterFile) (h : EXTI_HandleTypeDef)
    (c : EXTI_ConfigTypeDef) :
    HAL_EXTI_GetConfigLine s (some h) (some c) =
      (HAL_OK, some {
        Line := h.Line
        Mode :=
          (if (s.IMR (lineBank h.Line)).testBit (linePos h.Line) then EXTI_MODE_INTERRUPT
           else EXTI_MODE_NONE) |||
          (if (s.EMR (lineBank h.Line)).testBit (linePos h.Line) then EXTI_MODE_EVENT else 0)
        Trigger :=
          if h.Line &&& EXTI_CONFIG ≠ 0 then
            (if (s.RTSR (lineBank h.Line)).testBit (linePos h.Line) then EXTI_TRIGGER_RISING
             else EXTI_TRIGGER_NONE) |||
            (if (s.FTSR (lineBank h.Line)).testBit (linePos h.Line) then EXTI_TRIGGER_FALLING
             else 0)
          else EXTI_TRIGGER_NONE
        GPIOSel :=
          if h.Line &&& EXTI_CONFIG ≠ 0 then
            if h.Line &&& EXTI_GPIO = EXTI_GPIO then
              (s.EXTICR (linePos h.Line >>> 2) >>>
                (SBS_EXTICR1_PC_EXTI1_Pos * (linePos h.Line &&& 0x03))) &&&
                SBS_EXTICR1_PC_EXTI0
            else 0
          else 0 }) := by
  unfold HAL_EXTI_GetConfigLine
  dsimp only
  simp only [lineMask, and_mask_ne_zero_iff]
  by_cases hI : (s.IMR (lineBank h.Line)).testBit (linePos h.Line) <;>
    by_cases hE : (s.EMR (lineBank h.Line)).testBit (linePos h.Line) <;>
    by_cases hC : h.Line &&& EXTI_CONFIG ≠ 0 <;>
    by_cases hR : (s.RTSR (lineBank h.Line)).testBit (linePos h.Line) <;>
    by_cases hF : (s.FTSR (lineBank h.Line)).testBit (linePos h.Line) <;>
    by_cases hG : h.Line &&& EXTI_GPIO = EXTI_GPIO <;>
    simp [hI, hE, hC, hR, hF, hG, Nat.or_zero]

/-! IRQ handler characterization -/

theorem irq_state_eq (s : EXTI_RegisterFile) (h : EXTI_HandleTypeDef)
    (hp : s.PR (lineBank h.Line) &&& lineMask h.Line ≠ 0) :
    (HAL_EXTI_IRQHandler s h).1
      = { s with PR :=
                   upd s.PR (lineBank h.Line)
                     (prWrite (s.PR (lineBank h.Line)) (lineMask h.Line)) } := by
  unfold HAL_EXTI_IRQHandler
  dsimp only
  rw [if_pos hp]
  cases hcb : h.PendingCallback
  · rfl
  · rfl

theorem irq_calls_some (s : EXTI_RegisterFile) (h : EXTI_HandleTypeDef) (c : Nat)
    (hp : s.PR (lineBank h.Line) &&& lineMask h.Line ≠ 0)
    (hcb : h.PendingCallback = some c) :
    (HAL_EXTI_IRQHandler s h).2 = [(HAL_EXTI_IRQHandler s h).1] := by
  unfold HAL_EXTI_IRQHandler
  dsimp only
  rw [if_pos hp, hcb]

theorem irq_calls_none (s : EXTI_RegisterFile) (h : EXTI_HandleTypeDef)
    (hp : s.PR (lineBank h.Line) &&& lineMask h.Line ≠ 0)
    (hcb : h.PendingCallback = none) :
    (HAL_EXTI_IRQHandler s h).2 = [] := by
  unfold HAL_EXTI_IRQHandler
  dsimp only
  rw [if_pos hp, hcb]

/-! Claim theorems -/

/-- C10: HAL_EXTI_GetHandle returns an error status on an absent handle reference
with no mutation, and otherwise stores the given line identifier into the handle's
Line field and returns success, touching no hardware register and leaving the
stored callback unchanged in both cases. -/
theorem C10_getHandle (s : EXTI_RegisterFile) (line : Nat) (h : EXTI_HandleTypeDef) :
    HAL_EXTI_GetHandle s none line = (HAL_ERROR, s, none) ∧
    HAL_EXTI_GetHandle s (some h) line
      = (HAL_OK, s, some { Line := line, PendingCallback := h.PendingCallback }) :=
  ⟨rfl, rfl⟩

/-- C5: HAL_EXTI_RegisterCallback rejects every callback role other than the single
defined common-pending-callback role with an error status and an unchanged stored
callback; with the defined role it overwrites the stored callback (last writer
wins) and returns success. -/
theorem C5_registerCallback (h : EXTI_HandleTypeDef) (cid : Nat) (cb : Option Nat)
    (hid : cid ≠ HAL_EXTI_COMMON_CB_ID) :
    HAL_EXTI_RegisterCallback (some h) cid cb = some (HAL_ERROR, some h) ∧
    HAL_EXTI_RegisterCallback (some h) HAL_EXTI_COMMON_CB_ID cb
      = some (HAL_OK, some { h with PendingCallback := cb }) := by
  constructor
  · unfold HAL_EXTI_RegisterCallback
    rw [if_neg hid]
  · rfl

theorem C5_witness :
    ((1 : Nat) ≠ HAL_EXTI_COMMON_CB_ID) ∧
    (HAL_EXTI_RegisterCallback (some ⟨0, none⟩) 1 (some 7)
        = some (HAL_ERROR, some ⟨0, none⟩) ∧
     HAL_EXTI_RegisterCallback (some ⟨0, none⟩) HAL_EXTI_COMMON_CB_ID (some 7)
        = some (HAL_OK, some ⟨0, some 7⟩)) :=
  ⟨by decide, C5_registerCallback ⟨0, none⟩ 1 (some 7) (by decide)⟩

/-- C4 (amended): an absent handle or descriptor reference is reported via
HAL_ERROR with no register write and no handle mutation by
HAL_EXTI_SetConfigLine, HAL_EXTI_GetConfigLine and HAL_EXTI_ClearConfigLine;
HAL_EXTI_RegisterCallback performs no null-handle check: with an unknown role it
returns HAL_ERROR without dereferencing the handle, but with the defined role it
dereferences the handle unconditionally, so an absent handle never reaches a
status return (undefined behaviour, modelled as none). -/
theorem C4_null_checks (s : EXTI_RegisterFile) (h : EXTI_HandleTypeDef)
    (cfg : EXTI_ConfigTypeDef) (cid : Nat) (cb : Option Nat)
    (hid : cid ≠ HAL_EXTI_COMMON_CB_ID) :
    HAL_EXTI_SetConfigLine s none (some cfg) = (HAL_ERROR, s, none) ∧
    HAL_EXTI_SetConfigLine s (some h) none = (HAL_ERROR, s, some h) ∧
    HAL_EXTI_SetConfigLine s none none = (HAL_ERROR, s, none) ∧
    HAL_EXTI_GetConfigLine s none (some cfg) = (HAL_ERROR, some cfg) ∧
    HAL_EXTI_GetConfigLine s (some h) none = (HAL_ERROR, none) ∧
    HAL_EXTI_GetConfigLine s none none = (HAL_ERROR, none) ∧
    HAL_EXTI_ClearConfigLine s none = (HAL_ERROR, s) ∧
    HAL_EXTI_RegisterCallback none cid cb = some (HAL_ERROR, none) ∧
    HAL_EXTI_RegisterCallback none HAL_EXTI_COMMON_CB_ID cb = none := by
  refine ⟨rfl, rfl, rfl, rfl, rfl, rfl, rfl, ?_, rfl⟩
  unfold HAL_EXTI_RegisterCallback
  rw [if_neg hid]

theorem C4_null_checks_witness :
    ((1 : Nat) ≠ HAL_EXTI_COMMON_CB_ID) ∧
    (HAL_EXTI_SetConfigLine ⟨fun _ => 0, fun _ => 0, fun _ => 0, fun _ => 0,
        fun _ => 0, fun _ => 0, fun _ => 0⟩ none (some ⟨0, 0, 0, 0⟩)
      = (HAL_ERROR, ⟨fun _ => 0, fun _ => 0, fun _ => 0, fun _ => 0,
        fun _ => 0, fun _ => 0, fun _ => 0⟩, none) ∧
     HAL_EXTI_SetConfigLine ⟨fun _ => 0, fun _ => 0, fun _ => 0, fun _ => 0,
        fun _ => 0, fun _ => 0, fun _ => 0⟩ (some ⟨0, none⟩) none
      = (HAL_ERROR, ⟨fun _ => 0, fun _ => 0, fun _ => 0, fun _ => 0,
        fun _ => 0, fun _ => 0, fun _ => 0⟩, some ⟨0, none⟩) ∧
     HAL_EXTI_SetConfigLine ⟨fun _ => 0, fun _ => 0, fun _ => 0, fun _ => 0,
        fun _ => 0, fun _ => 0, fun _ => 0⟩ none none
      = (HAL_ERROR, ⟨fun _ => 0, fun _ => 0, fun _ => 0, fun _ => 0,
        fun _ => 0, fun _ => 0, fun _ => 0⟩, none) ∧
     HAL_EXTI_GetConfigLine ⟨fun _ => 0, fun _ => 0, fun _ => 0, fun _ => 0,
        fun _ => 0, fun _ => 0, fun _ => 0⟩ none (some ⟨0, 0, 0, 0⟩)
      = (HAL_ERROR, some ⟨0, 0, 0, 0⟩) ∧
     HAL_EXTI_GetConfigLine ⟨fun _ => 0, fun _ => 0, fun _ => 0, fun _ => 0,
        fun _ => 0, fun _ => 0, fun _ => 0⟩ (some ⟨0, none⟩) none = (HAL_ERROR, none) ∧
     HAL_EXTI_GetConfigLine ⟨fun _ => 0, fun _ => 0, fun _ => 0, fun _ => 0,
        fun _ => 0, fun _ => 0, fun _ => 0⟩ none none = (HAL_ERROR, none) ∧
     HAL_EXTI_ClearConfigLine ⟨fun _ => 0, fun _ => 0, fun _ => 0, fun _ => 0,
        fun _ => 0, fun _ => 0, fun _ => 0⟩ none
      = (HAL_ERROR, ⟨fun _ => 0, fun _ => 0, fun _ => 0, fun _ => 0,
        fun _ => 0, fun _ => 0, fun _ => 0⟩) ∧
     HAL_EXTI_RegisterCallback none 1 (some 7) = some (HAL_ERROR, none) ∧
     HAL_EXTI_RegisterCallback none HAL_EXTI_COMMON_CB_ID (some 7) = none) :=
  ⟨by decide, C4_null_checks _ ⟨0, none⟩ ⟨0, 0, 0, 0⟩ 1 (some 7) (by decide)⟩

/-- C4 counterexample: the claim states that an absent handle is reported via an
explicit error status also by HAL_EXTI_RegisterCallback; with the defined role
and an absent handle the function never returns any status (the C dereferences
the null handle before assigning the callback). -/
theorem C4_counterexample :
    HAL_EXTI_RegisterCallback none HAL_EXTI_COMMON_CB_ID (some 0) = none ∧
    ¬ ∃ r, HAL_EXTI_RegisterCallback none HAL_EXTI_COMMON_CB_ID (some 0) = some r := by
  constructor
  · rfl
  · intro hex
    rcases hex with ⟨r, hr⟩
    have hnone : (none : Option (HAL_StatusTypeDef × Option EXTI_HandleTypeDef)) = some r := hr
    exact Option.noConfusion hnone

/-- C9: the Edge argument of HAL_EXTI_GetPending and HAL_EXTI_ClearPending has no
influence on either operation: on a configurable line any two Edge values give the
same pending-query result and the same register state after the clear. -/
theorem C9_edge_ignored (s : EXTI_RegisterFile) (h : EXTI_HandleTypeDef) (e1 e2 : Nat)
    (hc : h.Line &&& EXTI_CONFIG ≠ 0) :
    HAL_EXTI_GetPending s h e1 = HAL_EXTI_GetPending s h e2 ∧
    HAL_EXTI_ClearPending s h e1 = HAL_EXTI_ClearPending s h e2 :=
  ⟨rfl, rfl⟩

theorem C9_witness :
    ((EXTI_CONFIG ||| 3) &&& EXTI_CONFIG ≠ 0) ∧
    (HAL_EXTI_GetPending ⟨fun _ => 0, fun _ => 0, fun _ => 0, fun _ => 0,
        fun _ => 0, fun _ => 0, fun _ => 0⟩ ⟨EXTI_CONFIG ||| 3, none⟩ 0
      = HAL_EXTI_GetPending ⟨fun _ => 0, fun _ => 0, fun _ => 0, fun _ => 0,
        fun _ => 0, fun _ => 0, fun _ => 0⟩ ⟨EXTI_CONFIG ||| 3, none⟩ 3 ∧
     HAL_EXTI_ClearPending ⟨fun _ => 0, fun _ => 0, fun _ => 0, fun _ => 0,
        fun _ => 0, fun _ => 0, fun _ => 0⟩ ⟨EXTI_CONFIG ||| 3, none⟩ 0
      = HAL_EXTI_ClearPending ⟨fun _ => 0, fun _ => 0, fun _ => 0, fun _ => 0,
        fun _ => 0, fun _ => 0, fun _ => 0⟩ ⟨EXTI_CONFIG ||| 3, none⟩ 3) :=
  ⟨by decide, C9_edge_ignored _ ⟨EXTI_CONFIG ||| 3, none⟩ 0 3 (by decide)⟩

/-- C7: when the line's pending bit is not set, HAL_EXTI_IRQHandler is a no-op:
no register changes and no callback invocation. -/
theorem C7_irq_noop (s : EXTI_RegisterFile) (h : EXTI_HandleTypeDef)
    (hp : s.PR (lineBank h.Line) &&& lineMask h.Line = 0) :
    HAL_EXTI_IRQHandler s h = (s, []) := by
  unfold HAL_EXTI_IRQHandler
  dsimp only
  rw [if_neg (by simp [hp])]

theorem C7_witness :
    ((⟨fun _ => 0, fun _ => 0, fun _ => 0, fun _ => 0, fun _ => 0, fun _ => 0,
        fun _ => 0⟩ : EXTI_RegisterFile).PR (lineBank 5) &&& lineMask 5 = 0) ∧
    HAL_EXTI_IRQHandler ⟨fun _ => 0, fun _ => 0, fun _ => 0, fun _ => 0,
        fun _ => 0, fun _ => 0, fun _ => 0⟩ ⟨5, some 1⟩
      = (⟨fun _ => 0, fun _ => 0, fun _ => 0, fun _ => 0, fun _ => 0, fun _ => 0,
        fun _ => 0⟩, []) :=
  ⟨by decide, C7_irq_noop _ ⟨5, some 1⟩ (by decide)⟩

/-- C8: generating a software interrupt on a configurable line makes a subsequent
pending-bit query on the same handle return 1, for any Edge argument. -/
theorem C8_swi_pending (s : EXTI_RegisterFile) (h : EXTI_HandleTypeDef) (e : Nat)
    (hc : h.Line &&& EXTI_CONFIG ≠ 0) :
    HAL_EXTI_GetPending (HAL_EXTI_GenerateSWI s h) h e = 1 := by
  unfold HAL_EXTI_GetPending HAL_EXTI_GenerateSWI
  dsimp only
  rw [upd_same]
  simp only [lineMask]
  rw [and_mask_shiftRight]
  have hb : (s.PR (lineBank h.Line) ||| 1 <<< linePos h.Line).testBit (linePos h.Line)
      = true := by
    simp [Nat.testBit_or, testBit_one_shiftLeft]
  rw [hb]
  simp

theorem C8_witness :
    ((EXTI_CONFIG ||| 3) &&& EXTI_CONFIG ≠ 0) ∧
    HAL_EXTI_GetPending
      (HAL_EXTI_GenerateSWI ⟨fun _ => 0, fun _ => 0, fun _ => 0, fun _ => 0,
        fun _ => 0, fun _ => 0, fun _ => 0⟩ ⟨EXTI_CONFIG ||| 3, none⟩)
      ⟨EXTI_CONFIG ||| 3, none⟩ 0 = 1 :=
  ⟨by decide, C8_swi_pending _ ⟨EXTI_CONFIG ||| 3, none⟩ 0 (by decide)⟩

/-- C3: when the line's pending bit is set, HAL_EXTI_IRQHandler clears exactly
that bit (write-1-to-clear: every other pending bit and every other register is
unchanged), a subsequent pending query returns 0, and only after the clear does it
invoke the registered callback exactly once if one is present (the state each
invocation observes has the bit already cleared); with no registered callback the
bit is still cleared and no callback runs. -/
theorem C3_irq_dispatch (s : EXTI_RegisterFile) (h : EXTI_HandleTypeDef)
    (hp : s.PR (lineBank h.Line) &&& lineMask h.Line ≠ 0) :
    ((HAL_EXTI_IRQHandler s h).1.PR (lineBank h.Line)).testBit (linePos h.Line) = false ∧
    (∀ q, q < 32 → q ≠ linePos h.Line →
      ((HAL_EXTI_IRQHandler s h).1.PR (lineBank h.Line)).testBit q
        = (s.PR (lineBank h.Line)).testBit q) ∧
    (∀ b, b ≠ lineBank h.Line → (HAL_EXTI_IRQHandler s h).1.PR b = s.PR b) ∧
    (HAL_EXTI_IRQHandler s h).1.IMR = s.IMR ∧
    (HAL_EXTI_IRQHandler s h).1.EMR = s.EMR ∧
    (HAL_EXTI_IRQHandler s h).1.RTSR = s.RTSR ∧
    (HAL_EXTI_IRQHandler s h).1.FTSR = s.FTSR ∧
    (HAL_EXTI_IRQHandler s h).1.SWIER = s.SWIER ∧
    (HAL_EXTI_IRQHandler s h).1.EXTICR = s.EXTICR ∧
    (∀ c, h.PendingCallback = some c →
      (HAL_EXTI_IRQHandler s h).2 = [(HAL_EXTI_IRQHandler s h).1]) ∧
    (h.PendingCallback = none → (HAL_EXTI_IRQHandler s h).2 = []) ∧
    (∀ e, HAL_EXTI_GetPending (HAL_EXTI_IRQHandler s h).1 h e = 0) := by
  have hstate := irq_state_eq s h hp
  have hbit : ∀ q, q < 32 →
      ((HAL_EXTI_IRQHandler s h).1.PR (lineBank h.Line)).testBit q
        = if q = linePos h.Line then false else (s.PR (lineBank h.Line)).testBit q := by
    intro q hq
    rw [hstate]
    dsimp only
    rw [upd_same]
    simp only [lineMask]
    exact prWrite_testBit _ _ _ hq
  refine ⟨?_, ?_, ?_, ?_, ?_, ?_, ?_, ?_, ?_, ?_, ?_, ?_⟩
  · rw [hbit (linePos h.Line) (linePos_lt_32 h.Line)]
    simp
  · intro q hq hne
    rw [hbit q hq]
    simp [hne]
  · intro b hb
    rw [hstate]
    dsimp only
    rw [upd_other _ _ _ _ hb]
  · rw [hstate]
  · rw [hstate]
  · rw [hstate]
  · rw [hstate]
  · rw [hstate]
  · rw [hstate]
  · intro c hcb
    exact irq_calls_some s h c hp hcb
  · intro hcb
    exact irq_calls_none s h hp hcb
  · intro e
    unfold HAL_EXTI_GetPending
    dsimp only
    simp only [lineMask]
    rw [and_mask_shiftRight]
    have hb0 := hbit (linePos h.Line) (linePos_lt_32 h.Line)
    rw [if_pos rfl] at hb0
    rw [hb0]
    simp

theorem C3_witness :
    ((⟨fun _ => 0, fun _ => 0, fun _ => 0, fun _ => 0, fun _ => 0xFF, fun _ => 0,
        fun _ => 0⟩ : EXTI_RegisterFile).PR (lineBank 5) &&& lineMask 5 ≠ 0) ∧
    (((HAL_EXTI_IRQHandler ⟨fun _ => 0, fun _ => 0, fun _ => 0, fun _ => 0,
        fun _ => 0xFF, fun _ => 0, fun _ => 0⟩
        ⟨5, some 1⟩).1.PR (lineBank 5)).testBit (linePos 5) = false) :=
  ⟨by decide,
    (C3_irq_dispatch ⟨fun _ => 0, fun _ => 0, fun _ => 0, fun _ => 0,
      fun _ => 0xFF, fun _ => 0, fun _ => 0⟩ ⟨5, some 1⟩ (by decide)).1⟩

/-! Frame helpers shared by the clear and set operations -/

theorem shiftRight2_eq (q : Nat) : q >>> 2 = q / 4 := by
  rw [Nat.shiftRight_eq_div_pow]

theorem and3_eq (q : Nat) : q &&& 0x03 = q % 4 := by
  have h3 : (0x03 : Nat) = 2 ^ 2 - 1 := by norm_num
  rw [h3, Nat.and_pow_two_sub_one_eq_mod]

theorem upd_andnot_frame (f : Nat → Nat) (bank pos b q : Nat) (hq : q < 32)
    (hne : b ≠ bank ∨ q ≠ pos) :
    ((upd f bank (f bank &&& (0xFFFFFFFF ^^^ (1 <<< pos)))) b).testBit q
      = (f b).testBit q := by
  by_cases hb : b = bank
  · subst hb
    rw [upd_same, andnot_testBit _ _ _ hq]
    have hqp : q ≠ pos := by tauto
    rw [if_neg hqp]
  · rw [upd_other _ _ _ _ hb]

theorem upd_rmw_frame (f : Nat → Nat) (bank pos b q : Nat) (bo : Bool) (hq : q < 32)
    (hne : b ≠ bank ∨ q ≠ pos) :
    ((upd f bank (rmwBit (f bank) bo (1 <<< pos))) b).testBit q = (f b).testBit q := by
  by_cases hb : b = bank
  · subst hb
    rw [upd_same, rmwBit_testBit _ _ _ _ hq]
    have hqp : q ≠ pos := by tauto
    rw [if_neg hqp]
  · rw [upd_other _ _ _ _ hb]

/-- C6: after HAL_EXTI_ClearConfigLine succeeds on a handle, a subsequent
HAL_EXTI_GetConfigLine on the same handle reports Mode = none, Trigger = none
and GPIOSel = 0; the clear removes the line's interrupt- and event-mode bits,
for configurable lines also its rising/falling trigger bits and for GPIO-sourced
lines its selector field, and disturbs no other line's bits (all other
interrupt/event/trigger bits, every other packed selector field, and the pending
and software-trigger registers are unchanged). -/
theorem C6_clear_then_get (s : EXTI_RegisterFile) (h : EXTI_HandleTypeDef)
    (c : EXTI_ConfigTypeDef) :
    (HAL_EXTI_ClearConfigLine s (some h)).1 = HAL_OK ∧
    HAL_EXTI_GetConfigLine (HAL_EXTI_ClearConfigLine s (some h)).2 (some h) (some c)
      = (HAL_OK, some { Line := h.Line, Mode := EXTI_MODE_NONE,
                        Trigger := EXTI_TRIGGER_NONE, GPIOSel := 0 }) ∧
    (∀ b q, q < 32 → b ≠ lineBank h.Line ∨ q ≠ linePos h.Line →
      (((HAL_EXTI_ClearConfigLine s (some h)).2).IMR b).testBit q
        = (s.IMR b).testBit q) ∧
    (∀ b q, q < 32 → b ≠ lineBank h.Line ∨ q ≠ linePos h.Line →
      (((HAL_EXTI_ClearConfigLine s (some h)).2).EMR b).testBit q
        = (s.EMR b).testBit q) ∧
    (∀ b q, q < 32 → b ≠ lineBank h.Line ∨ q ≠ linePos h.Line →
      (((HAL_EXTI_ClearConfigLine s (some h)).2).RTSR b).testBit q
        = (s.RTSR b).testBit q) ∧
    (∀ b q, q < 32 → b ≠ lineBank h.Line ∨ q ≠ linePos h.Line →
      (((HAL_EXTI_ClearConfigLine s (some h)).2).FTSR b).testBit q
        = (s.FTSR b).testBit q) ∧
    (∀ q, q < 16 → q ≠ linePos h.Line →
      ((((HAL_EXTI_ClearConfigLine s (some h)).2).EXTICR (q >>> 2)) >>>
          (SBS_EXTICR1_PC_EXTI1_Pos * (q &&& 0x03))) &&& SBS_EXTICR1_PC_EXTI0
        = ((s.EXTICR (q >>> 2)) >>> (SBS_EXTICR1_PC_EXTI1_Pos * (q &&& 0x03))) &&&
            SBS_EXTICR1_PC_EXTI0) ∧
    ((HAL_EXTI_ClearConfigLine s (some h)).2).PR = s.PR ∧
    ((HAL_EXTI_ClearConfigLine s (some h)).2).SWIER = s.SWIER := by
  have hIMRbit : (((HAL_EXTI_ClearConfigLine s (some h)).2).IMR
      (lineBank h.Line)).testBit (linePos h.Line) = false := by
    rw [clearConfig_IMR_eq, upd_same]
    simp only [lineMask]
    rw [andnot_testBit _ _ _ (linePos_lt_32 h.Line), if_pos rfl]
  have hEMRbit : (((HAL_EXTI_ClearConfigLine s (some h)).2).EMR
      (lineBank h.Line)).testBit (linePos h.Line) = false := by
    rw [clearConfig_EMR_eq, upd_same]
    simp only [lineMask]
    rw [andnot_testBit _ _ _ (linePos_lt_32 h.Line), if_pos rfl]
  have hRTSRbit : (((HAL_EXTI_ClearConfigLine s (some h)).2).RTSR
      (lineBank h.Line)).testBit (linePos h.Line) = false ∨
      ¬ h.Line &&& EXTI_CONFIG ≠ 0 := by
    by_cases h1 : h.Line &&& EXTI_CONFIG ≠ 0
    · left
      rw [clearConfig_RTSR_eq, if_pos h1, upd_same]
      simp only [lineMask]
      rw [andnot_testBit _ _ _ (linePos_lt_32 h.Line), if_pos rfl]
    · right
      exact h1
  have hFTSRbit : (((HAL_EXTI_ClearConfigLine s (some h)).2).FTSR
      (lineBank h.Line)).testBit (linePos h.Line) = false ∨
      ¬ h.Line &&& EXTI_CONFIG ≠ 0 := by
    by_cases h1 : h.Line &&& EXTI_CONFIG ≠ 0
    · left
      rw [clearConfig_FTSR_eq, if_pos h1, upd_same]
      simp only [lineMask]
      rw [andnot_testBit _ _ _ (linePos_lt_32 h.Line), if_pos rfl]
    · right
      exact h1
  refine ⟨rfl, ?_, ?_, ?_, ?_, ?_, ?_, clearConfig_PR_eq s h, clearConfig_SWIER_eq s h⟩
  · rw [getConfigLine_eq]
    rw [hIMRbit, hEMRbit]
    by_cases h1 : h.Line &&& EXTI_CONFIG ≠ 0
    · rcases hRTSRbit with hR | hR
      · rcases hFTSRbit with hF | hF
        · rw [hR, hF]
          by_cases h2 : h.Line &&& EXTI_GPIO = EXTI_GPIO
          · have hsel : ((((HAL_EXTI_ClearConfigLine s (some h)).2).EXTICR
                (linePos h.Line >>> 2)) >>>
                  (SBS_EXTICR1_PC_EXTI1_Pos * (linePos h.Line &&& 0x03))) &&&
                  SBS_EXTICR1_PC_EXTI0 = 0 := by
              rw [clearConfig_EXTICR_eq, if_pos h1, if_pos h2, upd_same]
              simp only [SBS_EXTICR1_PC_EXTI0, SBS_EXTICR1_PC_EXTI1_Pos]
              apply field_clear_self
              have hm := and3_eq (linePos h.Line)
              omega
            simp [h1, h2, hsel, EXTI_MODE_NONE, EXTI_MODE_INTERRUPT, EXTI_MODE_EVENT,
              EXTI_TRIGGER_NONE, EXTI_TRIGGER_RISING, EXTI_TRIGGER_FALLING]
          · simp [h1, h2, EXTI_MODE_NONE, EXTI_MODE_INTERRUPT, EXTI_MODE_EVENT,
              EXTI_TRIGGER_NONE, EXTI_TRIGGER_RISING, EXTI_TRIGGER_FALLING]
        · exact absurd h1 hF
      · exact absurd h1 hR
    · simp [h1, EXTI_MODE_NONE, EXTI_MODE_INTERRUPT, EXTI_MODE_EVENT,
        EXTI_TRIGGER_NONE, EXTI_TRIGGER_RISING, EXTI_TRIGGER_FALLING]
  · intro b q hq hne
    rw [clearConfig_IMR_eq]
    simp only [lineMask]
    exact upd_andnot_frame s.IMR (lineBank h.Line) (linePos h.Line) b q hq hne
  · intro b q hq hne
    rw [clearConfig_EMR_eq]
    simp only [lineMask]
    exact upd_andnot_frame s.EMR (lineBank h.Line) (linePos h.Line) b q hq hne
  · intro b q hq hne
    rw [clearConfig_RTSR_eq]
    by_cases h1 : h.Line &&& EXTI_CONFIG ≠ 0
    · rw [if_pos h1]
      simp only [lineMask]
      exact upd_andnot_frame s.RTSR (lineBank h.Line) (linePos h.Line) b q hq hne
    · rw [if_neg h1]
  · intro b q hq hne
    rw [clearConfig_FTSR_eq]
    by_cases h1 : h.Line &&& EXTI_CONFIG ≠ 0
    · rw [if_pos h1]
      simp only [lineMask]
      exact upd_andnot_frame s.FTSR (lineBank h.Line) (linePos h.Line) b q hq hne
    · rw [if_neg h1]
  · intro q hq hne
    rw [clearConfig_EXTICR_eq]
    by_cases h1 : h.Line &&& EXTI_CONFIG ≠ 0
    · rw [if_pos h1]
      by_cases h2 : h.Line &&& EXTI_GPIO = EXTI_GPIO
      · rw [if_pos h2]
        by_cases hw : q >>> 2 = linePos h.Line >>> 2
        · rw [hw, upd_same]
          simp only [SBS_EXTICR1_PC_EXTI0, SBS_EXTICR1_PC_EXTI1_Pos]
          apply field_clear_frame
          · have hm := and3_eq (linePos h.Line)
            omega
          · have hm := and3_eq q
            omega
          · have hm := and3_eq (linePos h.Line)
            omega
          · have hm := and3_eq q
            omega
          · have hmq := and3_eq q
            have hmp := and3_eq (linePos h.Line)
            have hdq := shiftRight2_eq q
            have hdp := shiftRight2_eq (linePos h.Line)
            rw [hdq, hdp] at hw
            omega
        · rw [upd_other _ _ _ _ hw]
      · rw [if_neg h2]
    · rw [if_neg h1]

theorem C6_witness :
    HAL_EXTI_GetConfigLine
      (HAL_EXTI_ClearConfigLine ⟨fun _ => 0xFFFFFFFF, fun _ => 0xFFFFFFFF,
        fun _ => 0xFFFFFFFF, fun _ => 0xFFFFFFFF, fun _ => 0xFFFFFFFF,
        fun _ => 0xFFFFFFFF, fun _ => 0xFFFFFFFF⟩
        (some ⟨ EXTI_GPIO ||| 3, none⟩)).2
      (some ⟨ EXTI_GPIO ||| 3, none⟩) (some ⟨0, 0, 0, 0⟩)
      = (HAL_OK, some { Line := EXTI_GPIO ||| 3, Mode := EXTI_MODE_NONE,
                        Trigger := EXTI_TRIGGER_NONE, GPIOSel := 0 }) :=
  (C6_clear_then_get ⟨fun _ => 0xFFFFFFFF, fun _ => 0xFFFFFFFF, fun _ => 0xFFFFFFFF,
    fun _ => 0xFFFFFFFF, fun _ => 0xFFFFFFFF, fun _ => 0xFFFFFFFF, fun _ => 0xFFFFFFFF⟩
    ⟨ EXTI_GPIO ||| 3, none⟩ ⟨0, 0, 0, 0⟩).2.1

/-! Read-back of the line's own bits after SetConfigLine -/

theorem setConfig_IMR_self (s : EXTI_RegisterFile) (hA : EXTI_HandleTypeDef)
    (cfg : EXTI_ConfigTypeDef) :
    (((HAL_EXTI_SetConfigLine s (some hA) (some cfg)).2.1).IMR
        (lineBank cfg.Line)).testBit (linePos cfg.Line)
      = (cfg.Mode &&& EXTI_MODE_INTERRUPT != 0) := by
  rw [setConfig_IMR_eq, upd_same]
  simp only [lineMask]
  rw [rmwBit_testBit _ _ _ _ (linePos_lt_32 cfg.Line), if_pos rfl]

theorem setConfig_EMR_self (s : EXTI_RegisterFile) (hA : EXTI_HandleTypeDef)
    (cfg : EXTI_ConfigTypeDef) :
    (((HAL_EXTI_SetConfigLine s (some hA) (some cfg)).2.1).EMR
        (lineBank cfg.Line)).testBit (linePos cfg.Line)
      = (cfg.Mode &&& EXTI_MODE_EVENT != 0) := by
  rw [setConfig_EMR_eq, upd_same]
  simp only [lineMask]
  rw [rmwBit_testBit _ _ _ _ (linePos_lt_32 cfg.Line), if_pos rfl]

theorem setConfig_RTSR_self (s : EXTI_RegisterFile) (hA : EXTI_HandleTypeDef)
    (cfg : EXTI_ConfigTypeDef) (h1 : cfg.Line &&& EXTI_CONFIG ≠ 0) :
    (((HAL_EXTI_SetConfigLine s (some hA) (some cfg)).2.1).RTSR
        (lineBank cfg.Line)).testBit (linePos cfg.Line)
      = (cfg.Trigger &&& EXTI_TRIGGER_RISING != 0) := by
  rw [setConfig_RTSR_eq, if_pos h1, upd_same]
  simp only [lineMask]
  rw [rmwBit_testBit _ _ _ _ (linePos_lt_32 cfg.Line), if_pos rfl]

theorem setConfig_FTSR_self (s : EXTI_RegisterFile) (hA : EXTI_HandleTypeDef)
    (cfg : EXTI_ConfigTypeDef) (h1 : cfg.Line &&& EXTI_CONFIG ≠ 0) :
    (((HAL_EXTI_SetConfigLine s (some hA) (some cfg)).2.1).FTSR
        (lineBank cfg.Line)).testBit (linePos cfg.Line)
      = (cfg.Trigger &&& EXTI_TRIGGER_FALLING != 0) := by
  rw [setConfig_FTSR_eq, if_pos h1, upd_same]
  simp only [lineMask]
  rw [rmwBit_testBit _ _ _ _ (linePos_lt_32 cfg.Line), if_pos rfl]

theorem setConfig_EXTICR_self (s : EXTI_RegisterFile) (hA : EXTI_HandleTypeDef)
    (cfg : EXTI_ConfigTypeDef) (h1 : cfg.Line &&& EXTI_CONFIG ≠ 0)
    (h2 : cfg.Line &&& EXTI_GPIO = EXTI_GPIO) (hsel : cfg.GPIOSel < 16) :
    ((((HAL_EXTI_SetConfigLine s (some hA) (some cfg)).2.1).EXTICR
        (linePos cfg.Line >>> 2)) >>>
          (SBS_EXTICR1_PC_EXTI1_Pos * (linePos cfg.Line &&& 0x03))) &&&
        SBS_EXTICR1_PC_EXTI0
      = cfg.GPIOSel := by
  rw [setConfig_EXTICR_eq, if_pos h1, if_pos h2, upd_same]
  simp only [SBS_EXTICR1_PC_EXTI0, SBS_EXTICR1_PC_EXTI1_Pos]
  apply field_roundtrip _ _ _ hsel
  have hm := and3_eq (linePos cfg.Line)
  omega

theorem mode_roundtrip (m : Nat) (hm : m < 4) :
    ((if (m &&& EXTI_MODE_INTERRUPT != 0) = true then EXTI_MODE_INTERRUPT
      else EXTI_MODE_NONE) |||
     (if (m &&& EXTI_MODE_EVENT != 0) = true then EXTI_MODE_EVENT else 0)) = m := by
  interval_cases m <;> decide

theorem trigger_roundtrip (t : Nat) (ht : t < 4) :
    ((if (t &&& EXTI_TRIGGER_RISING != 0) = true then EXTI_TRIGGER_RISING
      else EXTI_TRIGGER_NONE) |||
     (if (t &&& EXTI_TRIGGER_FALLING != 0) = true then EXTI_TRIGGER_FALLING else 0)) = t := by
  interval_cases t <;> decide

/-- C1 counterexample: on the configurable non-GPIO line EXTI_CONFIG ||| 16, setting
the descriptor (mode = interrupt, trigger = rising, GPIOSel = 2) and reading back
yields GPIOSel = 0, not 2: the read-back descriptor is not equal to the one set. -/
theorem C1_counterexample :
    (HAL_EXTI_GetConfigLine
        (HAL_EXTI_SetConfigLine ⟨fun _ => 0, fun _ => 0, fun _ => 0, fun _ => 0,
          fun _ => 0, fun _ => 0, fun _ => 0⟩ (some ⟨0, none⟩)
          (some ⟨EXTI_CONFIG ||| 16, 1, 1, 2⟩)).2.1
        (HAL_EXTI_SetConfigLine ⟨fun _ => 0, fun _ => 0, fun _ => 0, fun _ => 0,
          fun _ => 0, fun _ => 0, fun _ => 0⟩ (some ⟨0, none⟩)
          (some ⟨EXTI_CONFIG ||| 16, 1, 1, 2⟩)).2.2
        (some ⟨0, 0, 0, 0⟩)).2
      = some ⟨EXTI_CONFIG ||| 16, 1, 1, 0⟩ ∧
    (HAL_EXTI_GetConfigLine
        (HAL_EXTI_SetConfigLine ⟨fun _ => 0, fun _ => 0, fun _ => 0, fun _ => 0,
          fun _ => 0, fun _ => 0, fun _ => 0⟩ (some ⟨0, none⟩)
          (some ⟨EXTI_CONFIG ||| 16, 1, 1, 2⟩)).2.1
        (HAL_EXTI_SetConfigLine ⟨fun _ => 0, fun _ => 0, fun _ => 0, fun _ => 0,
          fun _ => 0, fun _ => 0, fun _ => 0⟩ (some ⟨0, none⟩)
          (some ⟨EXTI_CONFIG ||| 16, 1, 1, 2⟩)).2.2
        (some ⟨0, 0, 0, 0⟩)).2
      ≠ some ⟨EXTI_CONFIG ||| 16, 1, 1, 2⟩ := by
  constructor
  · decide
  · decide

/-- C1 (amended): for every configurable line, any mode and trigger in 0..3 and,
for GPIO-sourced lines, any valid port selector, setting a descriptor and then
immediately getting the configuration on the same handle returns HAL_OK and a
descriptor with the same Line, Mode and Trigger; the returned GPIOSel equals the
one set for GPIO-sourced lines and is 0 for non-GPIO configurable lines
regardless of the GPIOSel that was set. -/
theorem C1_set_get_roundtrip (s : EXTI_RegisterFile) (hA : EXTI_HandleTypeDef)
    (cfg out : EXTI_ConfigTypeDef)
    (hconf : cfg.Line &&& EXTI_CONFIG ≠ 0) (hm : cfg.Mode < 4) (ht : cfg.Trigger < 4)
    (hsel : cfg.Line &&& EXTI_GPIO = EXTI_GPIO → cfg.GPIOSel < 16) :
    HAL_EXTI_GetConfigLine (HAL_EXTI_SetConfigLine s (some hA) (some cfg)).2.1
        (HAL_EXTI_SetConfigLine s (some hA) (some cfg)).2.2 (some out)
      = (HAL_OK, some ⟨cfg.Line, cfg.Mode, cfg.Trigger,
          if cfg.Line &&& EXTI_GPIO = EXTI_GPIO then cfg.GPIOSel else 0⟩) := by
  rw [setConfig_handle, getConfigLine_eq]
  dsimp only
  rw [setConfig_IMR_self, setConfig_EMR_self, setConfig_RTSR_self s hA cfg hconf,
    setConfig_FTSR_self s hA cfg hconf]
  simp only [if_pos hconf]
  rw [mode_roundtrip cfg.Mode hm, trigger_roundtrip cfg.Trigger ht]
  by_cases h2 : cfg.Line &&& EXTI_GPIO = EXTI_GPIO
  · rw [if_pos h2, if_pos h2, setConfig_EXTICR_self s hA cfg hconf h2 (hsel h2)]
  · rw [if_neg h2, if_neg h2]

theorem C1_witness :
    (( EXTI_GPIO ||| 3) &&& EXTI_CONFIG ≠ 0 ∧ (3 : Nat) < 4 ∧ (2 : Nat) < 4) ∧
    HAL_EXTI_GetConfigLine
        (HAL_EXTI_SetConfigLine ⟨fun _ => 0, fun _ => 0, fun _ => 0, fun _ => 0,
          fun _ => 0, fun _ => 0, fun _ => 0⟩ (some ⟨0, none⟩)
          (some ⟨ EXTI_GPIO ||| 3, 3, 2, 5⟩)).2.1
        (HAL_EXTI_SetConfigLine ⟨fun _ => 0, fun _ => 0, fun _ => 0, fun _ => 0,
          fun _ => 0, fun _ => 0, fun _ => 0⟩ (some ⟨0, none⟩)
          (some ⟨ EXTI_GPIO ||| 3, 3, 2, 5⟩)).2.2 (some ⟨0, 0, 0, 0⟩)
      = (HAL_OK, some ⟨ EXTI_GPIO ||| 3, 3, 2,
          if ( EXTI_GPIO ||| 3) &&& EXTI_GPIO = EXTI_GPIO then 5 else 0⟩) :=
  ⟨⟨by decide, by decide, by decide⟩,
    C1_set_get_roundtrip ⟨fun _ => 0, fun _ => 0, fun _ => 0, fun _ => 0,
      fun _ => 0, fun _ => 0, fun _ => 0⟩ ⟨0, none⟩ ⟨ EXTI_GPIO ||| 3, 3, 2, 5⟩
      ⟨0, 0, 0, 0⟩ (by decide) (by decide) (by decide) (fun _ => by decide)⟩

/-! Frame lemmas: SetConfigLine does not touch another line's bits -/

theorem getConfig_state_congr (s s' : EXTI_RegisterFile) (h : EXTI_HandleTypeDef)
    (c c' : EXTI_ConfigTypeDef)
    (hI : (s'.IMR (lineBank h.Line)).testBit (linePos h.Line)
        = (s.IMR (lineBank h.Line)).testBit (linePos h.Line))
    (hE : (s'.EMR (lineBank h.Line)).testBit (linePos h.Line)
        = (s.EMR (lineBank h.Line)).testBit (linePos h.Line))
    (hR : (s'.RTSR (lineBank h.Line)).testBit (linePos h.Line)
        = (s.RTSR (lineBank h.Line)).testBit (linePos h.Line))
    (hF : (s'.FTSR (lineBank h.Line)).testBit (linePos h.Line)
        = (s.FTSR (lineBank h.Line)).testBit (linePos h.Line))
    (hX : h.Line &&& EXTI_GPIO = EXTI_GPIO →
      (s'.EXTICR (linePos h.Line >>> 2) >>>
          (SBS_EXTICR1_PC_EXTI1_Pos * (linePos h.Line &&& 0x03))) &&& SBS_EXTICR1_PC_EXTI0
        = (s.EXTICR (linePos h.Line >>> 2) >>>
          (SBS_EXTICR1_PC_EXTI1_Pos * (linePos h.Line &&& 0x03))) &&& SBS_EXTICR1_PC_EXTI0) :
    HAL_EXTI_GetConfigLine s' (some h) (some c')
      = HAL_EXTI_GetConfigLine s (some h) (some c) := by
  rw [getConfigLine_eq, getConfigLine_eq, hI, hE, hR, hF]
  by_cases h1 : h.Line &&& EXTI_CONFIG ≠ 0
  · simp only [if_pos h1]
    by_cases h2 : h.Line &&& EXTI_GPIO = EXTI_GPIO
    · simp only [if_pos h2, hX h2]
    · simp only [if_neg h2]
  · simp only [if_neg h1]

theorem setConfig_IMR_frame (s : EXTI_RegisterFile) (hA : EXTI_HandleTypeDef)
    (cfg : EXTI_ConfigTypeDef) (b q : Nat) (hq : q < 32)
    (hne : b ≠ lineBank cfg.Line ∨ q ≠ linePos cfg.Line) :
    (((HAL_EXTI_SetConfigLine s (some hA) (some cfg)).2.1).IMR b).testBit q
      = (s.IMR b).testBit q := by
  rw [setConfig_IMR_eq]
  simp only [lineMask]
  exact upd_rmw_frame s.IMR (lineBank cfg.Line) (linePos cfg.Line) b q _ hq hne

theorem setConfig_EMR_frame (s : EXTI_RegisterFile) (hA : EXTI_HandleTypeDef)
    (cfg : EXTI_ConfigTypeDef) (b q : Nat) (hq : q < 32)
    (hne : b ≠ lineBank cfg.Line ∨ q ≠ linePos cfg.Line) :
    (((HAL_EXTI_SetConfigLine s (some hA) (some cfg)).2.1).EMR b).testBit q
      = (s.EMR b).testBit q := by
  rw [setConfig_EMR_eq]
  simp only [lineMask]
  exact upd_rmw_frame s.EMR (lineBank cfg.Line) (linePos cfg.Line) b q _ hq hne

theorem setConfig_RTSR_frame (s : EXTI_RegisterFile) (hA : EXTI_HandleTypeDef)
    (cfg : EXTI_ConfigTypeDef) (b q : Nat) (hq : q < 32)
    (hne : b ≠ lineBank cfg.Line ∨ q ≠ linePos cfg.Line) :
    (((HAL_EXTI_SetConfigLine s (some hA) (some cfg)).2.1).RTSR b).testBit q
      = (s.RTSR b).testBit q := by
  rw [setConfig_RTSR_eq]
  by_cases h1 : cfg.Line &&& EXTI_CONFIG ≠ 0
  · rw [if_pos h1]
    simp only [lineMask]
    exact upd_rmw_frame s.RTSR (lineBank cfg.Line) (linePos cfg.Line) b q _ hq hne
  · rw [if_neg h1]

theorem setConfig_FTSR_frame (s : EXTI_RegisterFile) (hA : EXTI_HandleTypeDef)
    (cfg : EXTI_ConfigTypeDef) (b q : Nat) (hq : q < 32)
    (hne : b ≠ lineBank cfg.Line ∨ q ≠ linePos cfg.Line) :
    (((HAL_EXTI_SetConfigLine s (some hA) (some cfg)).2.1).FTSR b).testBit q
      = (s.FTSR b).testBit q := by
  rw [setConfig_FTSR_eq]
  by_cases h1 : cfg.Line &&& EXTI_CONFIG ≠ 0
  · rw [if_pos h1]
    simp only [lineMask]
    exact upd_rmw_frame s.FTSR (lineBank cfg.Line) (linePos cfg.Line) b q _ hq hne
  · rw [if_neg h1]

theorem setConfig_EXTICR_frame (s : EXTI_RegisterFile) (hA : EXTI_HandleTypeDef)
    (cfg : EXTI_ConfigTypeDef) (q : Nat) (hq : q < 16)
    (hsel : cfg.Line &&& EXTI_GPIO = EXTI_GPIO → cfg.GPIOSel < 16)
    (hne : cfg.Line &&& EXTI_GPIO = EXTI_GPIO → linePos cfg.Line ≠ q) :
    (((HAL_EXTI_SetConfigLine s (some hA) (some cfg)).2.1).EXTICR (q >>> 2) >>>
        (SBS_EXTICR1_PC_EXTI1_Pos * (q &&& 0x03))) &&& SBS_EXTICR1_PC_EXTI0
      = (s.EXTICR (q >>> 2) >>>
        (SBS_EXTICR1_PC_EXTI1_Pos * (q &&& 0x03))) &&& SBS_EXTICR1_PC_EXTI0 := by
  rw [setConfig_EXTICR_eq]
  by_cases h1 : cfg.Line &&& EXTI_CONFIG ≠ 0
  · rw [if_pos h1]
    by_cases h2 : cfg.Line &&& EXTI_GPIO = EXTI_GPIO
    · rw [if_pos h2]
      by_cases hw : q >>> 2 = linePos cfg.Line >>> 2
      · rw [hw, upd_same]
        simp only [SBS_EXTICR1_PC_EXTI0, SBS_EXTICR1_PC_EXTI1_Pos]
        have hmq := and3_eq q
        have hmp := and3_eq (linePos cfg.Line)
        have hdq := shiftRight2_eq q
        have hdp := shiftRight2_eq (linePos cfg.Line)
        have hpq : linePos cfg.Line ≠ q := hne h2
        apply field_write_frame _ _ _ _ (hsel h2)
        · omega
        · omega
        · omega
        · omega
        · rw [hdq, hdp] at hw
          omega
      · rw [upd_other _ _ _ _ hw]
    · rw [if_neg h2]
  · rw [if_neg h1]

/-- C2: configuring line A never changes the observable configuration of a
distinct valid line B: the read-modify-writes touch only A's bit in the mask and
trigger registers, the selector-field rewrite touches only A's packed field, the
pending and software-trigger registers are untouched, and a GetConfigLine on B
returns the same descriptor before and after. -/
theorem C2_set_frame (s : EXTI_RegisterFile) (hA hB : EXTI_HandleTypeDef)
    (cfgA cB : EXTI_ConfigTypeDef)
    (hvA : ValidLine cfgA.Line) (hvB : ValidLine hB.Line)
    (hselA : cfgA.Line &&& EXTI_GPIO = EXTI_GPIO → cfgA.GPIOSel < 16)
    (hdist : lineBank cfgA.Line ≠ lineBank hB.Line ∨
             linePos cfgA.Line ≠ linePos hB.Line) :
    HAL_EXTI_GetConfigLine (HAL_EXTI_SetConfigLine s (some hA) (some cfgA)).2.1
        (some hB) (some cB)
      = HAL_EXTI_GetConfigLine s (some hB) (some cB) ∧
    ((HAL_EXTI_SetConfigLine s (some hA) (some cfgA)).2.1).PR = s.PR ∧
    ((HAL_EXTI_SetConfigLine s (some hA) (some cfgA)).2.1).SWIER = s.SWIER := by
  have hdist' : lineBank hB.Line ≠ lineBank cfgA.Line ∨
      linePos hB.Line ≠ linePos cfgA.Line := by
    rcases hdist with hd | hd
    · exact Or.inl (Ne.symm hd)
    · exact Or.inr (Ne.symm hd)
  refine ⟨?_, setConfig_PR_eq s hA cfgA, setConfig_SWIER_eq s hA cfgA⟩
  apply getConfig_state_congr
  · exact setConfig_IMR_frame s hA cfgA _ _ (linePos_lt_32 hB.Line) hdist'
  · exact setConfig_EMR_frame s hA cfgA _ _ (linePos_lt_32 hB.Line) hdist'
  · exact setConfig_RTSR_frame s hA cfgA _ _ (linePos_lt_32 hB.Line) hdist'
  · exact setConfig_FTSR_frame s hA cfgA _ _ (linePos_lt_32 hB.Line) hdist'
  · intro h2B
    apply setConfig_EXTICR_frame s hA cfgA (linePos hB.Line) (hvB h2B).2 hselA
    intro h2A
    have hbA := (hvA h2A).1
    have hbB := (hvB h2B).1
    rcases hdist with hd | hd
    · rw [hbA, hbB] at hd
      exact absurd rfl hd
    · exact hd

theorem C2_witness :
    (ValidLine ( EXTI_GPIO ||| 3) ∧ ValidLine ( EXTI_GPIO ||| 4) ∧
     linePos ( EXTI_GPIO ||| 3) ≠ linePos ( EXTI_GPIO ||| 4)) ∧
    HAL_EXTI_GetConfigLine
        (HAL_EXTI_SetConfigLine ⟨fun _ => 0, fun _ => 0, fun _ => 0, fun _ => 0,
          fun _ => 0, fun _ => 0, fun _ => 0⟩ (some ⟨0, none⟩)
          (some ⟨ EXTI_GPIO ||| 3, 3, 3, 5⟩)).2.1
        (some ⟨ EXTI_GPIO ||| 4, none⟩) (some ⟨0, 0, 0, 0⟩)
      = HAL_EXTI_GetConfigLine ⟨fun _ => 0, fun _ => 0, fun _ => 0, fun _ => 0,
          fun _ => 0, fun _ => 0, fun _ => 0⟩
          (some ⟨ EXTI_GPIO ||| 4, none⟩) (some ⟨0, 0, 0, 0⟩) :=
  ⟨⟨by decide, by decide, by decide⟩,
    (C2_set_frame ⟨fun _ => 0, fun _ => 0, fun _ => 0, fun _ => 0, fun _ => 0,
        fun _ => 0, fun _ => 0⟩ ⟨0, none⟩ ⟨ EXTI_GPIO ||| 4, none⟩
        ⟨ EXTI_GPIO ||| 3, 3, 3, 5⟩ ⟨0, 0, 0, 0⟩ (by decide) (by decide)
        (fun _ => by decide) (Or.inr (by decide))).1⟩
